import Mathlib

/-!
Verification development for the NYC property-compliance pipeline
(`complianceNYC.py`, class `ComprehensivePropertyComplianceSystem`).

The Python code is shallowly embedded: dict rows become association lists
over a small value type, the date handling of `datetime.strptime`,
`datetime.fromisoformat` and `str.strftime` is modelled character by
character, fallible code (Python exceptions) returns `Except`, and the
orchestrator's record assembly becomes a pure function of the gathered
compliance data.
-/

namespace ComplianceNYC

/-- Model of the Python values that appear as fields of the dict rows the
pipeline handles: `None` or a string.  (The gathered open-data rows carry
their fields as strings; `clean_data_for_json` turns null-ish values into
`None`.) -/
inductive PyVal where
  | vNone : PyVal
  | vStr : String → PyVal
deriving DecidableEq, Repr

/-- A Python dict row: association list from field name to value.  Rows
built by the pipeline never repeat a key. -/
abbrev Row := List (String × PyVal)

/-- Dict lookup: `row[k]` when present. -/
def rowGet? (r : Row) (k : String) : Option PyVal :=
  match r.find? (fun kv => kv.1 == k) with
  | some kv => some kv.2
  | none => none

/-- Python `row.get(k)`: `None` when the key is absent. -/
def pyGet (r : Row) (k : String) : PyVal :=
  (rowGet? r k).getD PyVal.vNone

/-- Python `row.get(k, d)`: the default applies only when the key is
absent, not when it is present with value `None`. -/
def pyGetD (r : Row) (k : String) (d : PyVal) : PyVal :=
  (rowGet? r k).getD d

/-- Python truthiness for the modelled values: `None` and `""` are falsy. -/
def truthy : PyVal → Bool
  | PyVal.vNone => false
  | PyVal.vStr s => s != ""

/-- Truthiness of an `Optional[str]` field (`None` and `""` are falsy). -/
def optTruthy : Option String → Bool
  | none => false
  | some s => s != ""

/-- Python `str(v)` for the modelled values. -/
def pyStr : PyVal → String
  | PyVal.vNone => "None"
  | PyVal.vStr s => s

/-- Python `str.strip()` (whitespace at both ends). -/
def pyStrip (s : String) : String :=
  String.mk (((s.toList.dropWhile Char.isWhitespace).reverse.dropWhile
    Char.isWhitespace).reverse)

/-- ASCII lowering of one character, as Python `str.lower()` does on the
ASCII field names and values the pipeline handles. -/
def lowerChar (c : Char) : Char :=
  if 65 ≤ c.toNat ∧ c.toNat ≤ 90 then Char.ofNat (c.toNat + 32) else c

/-- Python `str.lower()`. -/
def pyLower (s : String) : String :=
  String.mk (s.toList.map lowerChar)

def listStartsWith : List Char → List Char → Bool
  | [], _ => true
  | _ :: _, [] => false
  | p :: ps, c :: cs => p == c && listStartsWith ps cs

def listContainsSub (needle : List Char) : List Char → Bool
  | [] => listStartsWith needle []
  | c :: cs => listStartsWith needle (c :: cs) || listContainsSub needle cs

/-- Substring test, modelling Python `needle in haystack`. -/
def strContains (haystack needle : String) : Bool :=
  listContainsSub needle.toList haystack.toList

def replaceAux (pat rep : List Char) : Nat → List Char → List Char
  | 0, cs => cs
  | _ + 1, [] => []
  | fuel + 1, c :: cs =>
      if listStartsWith pat (c :: cs) then
        rep ++ replaceAux pat rep fuel ((c :: cs).drop pat.length)
      else c :: replaceAux pat rep fuel cs

/-- Python `str.replace(pat, rep)`: all non-overlapping occurrences, left
to right (for a non-empty pattern). -/
def pyReplace (s pat rep : String) : String :=
  if pat.toList = [] then s
  else String.mk (replaceAux pat.toList rep.toList s.toList.length s.toList)

/-- An `Option String` as the Python value stored in a dict
(`None` or the string). -/
def optToVal : Option String → PyVal
  | none => PyVal.vNone
  | some s => PyVal.vStr s

/-! ### Dates

`datetime` values produced by `strptime`/`fromisoformat` are modelled by
their date part only; the formats the pipeline uses either carry no time
of day or discard it (every comparison and every `strftime('%Y-%m-%d')`
in the code depends on the date part alone, and all strptime formats used
fix the time to midnight or are compared only through the date). -/

/-- A parsed Python `datetime`'s date part. -/
structure PyDate where
  year : Nat
  month : Nat
  day : Nat
deriving DecidableEq, Repr

/-- Linear key for comparing dates (later date, larger key). -/
def PyDate.key (d : PyDate) : Nat :=
  d.year * 10000 + d.month * 100 + d.day

def isLeapYear (y : Nat) : Bool :=
  y % 4 == 0 && (y % 100 != 0 || y % 400 == 0)

def daysInMonth (y m : Nat) : Nat :=
  if m = 2 then (if isLeapYear y then 29 else 28)
  else if m = 4 ∨ m = 6 ∨ m = 9 ∨ m = 11 then 30
  else 31

/-- The validity check `datetime.datetime` performs on construction
(`strptime` raises `ValueError` on e.g. Feb 30, which the callers catch
as a failed parse). -/
def validYMD (y m d : Nat) : Bool :=
  decide (1 ≤ y) && decide (y ≤ 9999) && decide (1 ≤ m) && decide (m ≤ 12) &&
    decide (1 ≤ d) && decide (d ≤ daysInMonth y m)

def digitVal (c : Char) : Nat := c.toNat - 48

/-- Read exactly `n` decimal digits, accumulating their value. -/
def readDigits : Nat → Nat → List Char → Option (Nat × List Char)
  | 0, acc, cs => some (acc, cs)
  | n + 1, acc, c :: cs =>
      if c.isDigit then readDigits n (acc * 10 + digitVal c) cs else none
  | _ + 1, _, [] => none

def expectChar (c : Char) : List Char → Option (List Char)
  | x :: rest => if x = c then some rest else none
  | [] => none

/-- CPython `strptime` matches numeric fields like `%m`, `%d`, `%H`, `%M`,
`%S` with a regex that accepts a two-digit form or a one-digit form, with
backtracking into the rest of the pattern; this helper tries the
two-digit reading first and falls back to one digit if the continuation
fails, mirroring the regex alternation order. -/
def readNum2or1 (lo hi : Nat) (cs : List Char)
    (next : Nat → List Char → Option PyDate) : Option PyDate :=
  let twoDigit : Option PyDate :=
    match cs with
    | c1 :: c2 :: rest =>
        if c1.isDigit && c2.isDigit then
          let v := digitVal c1 * 10 + digitVal c2
          if lo ≤ v ∧ v ≤ hi then next v rest else none
        else none
    | _ => none
  match twoDigit with
  | some d => some d
  | none =>
      match cs with
      | c1 :: rest =>
          if c1.isDigit then
            let v := digitVal c1
            if lo ≤ v ∧ v ≤ hi then next v rest else none
          else none
      | [] => none

/-- Parse the `%Y-%m-%d` prefix (`%Y` is exactly four digits in CPython),
handing year, month, day and the remaining input to the continuation. -/
def readYmdThen (cs : List Char)
    (next : Nat → Nat → Nat → List Char → Option PyDate) : Option PyDate :=
  match readDigits 4 0 cs with
  | none => none
  | some (y, cs1) =>
      match expectChar '-' cs1 with
      | none => none
      | some cs2 =>
          readNum2or1 1 12 cs2 (fun m cs3 =>
            match expectChar '-' cs3 with
            | none => none
            | some cs4 =>
                readNum2or1 1 31 cs4 (fun d cs5 => next y m d cs5))

/-- `datetime.strptime(s, '%Y-%m-%d')` (full match required). -/
def strptimeYmd (s : String) : Option PyDate :=
  readYmdThen s.toList (fun y m d rest =>
    if rest = [] ∧ validYMD y m d then some ⟨y, m, d⟩ else none)

/-- `datetime.strptime(s, '%m/%d/%Y')`. -/
def strptimeMdYSlash (s : String) : Option PyDate :=
  readNum2or1 1 12 s.toList (fun m cs1 =>
    match expectChar '/' cs1 with
    | none => none
    | some cs2 =>
        readNum2or1 1 31 cs2 (fun d cs3 =>
          match expectChar '/' cs3 with
          | none => none
          | some cs4 =>
              match readDigits 4 0 cs4 with
              | some (y, rest) =>
                  if rest = [] ∧ validYMD y m d then some ⟨y, m, d⟩ else none
              | none => none))

/-- `datetime.strptime(s, '%m-%d-%Y')`. -/
def strptimeMdYDash (s : String) : Option PyDate :=
  readNum2or1 1 12 s.toList (fun m cs1 =>
    match expectChar '-' cs1 with
    | none => none
    | some cs2 =>
        readNum2or1 1 31 cs2 (fun d cs3 =>
          match expectChar '-' cs3 with
          | none => none
          | some cs4 =>
              match readDigits 4 0 cs4 with
              | some (y, rest) =>
                  if rest = [] ∧ validYMD y m d then some ⟨y, m, d⟩ else none
              | none => none))

/-- `datetime.strptime(s, '%Y-%m-%dT%H:%M:%S')`.  Seconds 60 and 61 pass
the strptime regex but make the `datetime` constructor raise, which the
callers treat as a failed parse, so they are rejected here directly. -/
def strptimeYmdHMS (s : String) : Option PyDate :=
  readYmdThen s.toList (fun y m d cs =>
    match expectChar 'T' cs with
    | none => none
    | some cs1 =>
        readNum2or1 0 23 cs1 (fun _ cs2 =>
          match expectChar ':' cs2 with
          | none => none
          | some cs3 =>
              readNum2or1 0 59 cs3 (fun _ cs4 =>
                match expectChar ':' cs4 with
                | none => none
                | some cs5 =>
                    readNum2or1 0 59 cs5 (fun _ rest =>
                      if rest = [] ∧ validYMD y m d then some ⟨y, m, d⟩
                      else none))))

/-- `datetime.strptime(s, '%Y-%m-%dT%H:%M:%S.%f')` (`%f` is one to six
digits and here must consume the rest of the input). -/
def strptimeYmdHMSf (s : String) : Option PyDate :=
  readYmdThen s.toList (fun y m d cs =>
    match expectChar 'T' cs with
    | none => none
    | some cs1 =>
        readNum2or1 0 23 cs1 (fun _ cs2 =>
          match expectChar ':' cs2 with
          | none => none
          | some cs3 =>
              readNum2or1 0 59 cs3 (fun _ cs4 =>
                match expectChar ':' cs4 with
                | none => none
                | some cs5 =>
                    readNum2or1 0 59 cs5 (fun _ cs6 =>
                      match expectChar '.' cs6 with
                      | none => none
                      | some frac =>
                          if 1 ≤ frac.length ∧ frac.length ≤ 6 ∧
                              frac.all Char.isDigit ∧ validYMD y m d then
                            some ⟨y, m, d⟩
                          else none))))

/-! `datetime.fromisoformat`, modelled on CPython 3.10 (the strict
inverse of `datetime.isoformat`, digit-only components): a
`YYYY-MM-DD` date with two-digit month and day, optionally followed by a
one-character separator and a time `HH[:MM[:SS[.fff or .ffffff]]]`,
optionally followed by an offset `±HH:MM[:SS[.ffffff]]`. -/

/-- Read exactly two digits whose value lies in `[lo, hi]`. -/
def read2 (lo hi : Nat) : List Char → Option (Nat × List Char)
  | c1 :: c2 :: rest =>
      if c1.isDigit && c2.isDigit then
        let v := digitVal c1 * 10 + digitVal c2
        if lo ≤ v ∧ v ≤ hi then some (v, rest) else none
      else none
  | _ => none

/-- The `HH[:MM[:SS[.fff or .ffffff]]]` time shape of
`fromisoformat`, consuming the whole input. -/
def isoTimeOk (cs : List Char) : Bool :=
  match read2 0 23 cs with
  | none => false
  | some (_, rest) =>
      match rest with
      | [] => true
      | ':' :: r1 =>
          match read2 0 59 r1 with
          | none => false
          | some (_, r2) =>
              match r2 with
              | [] => true
              | ':' :: r3 =>
                  match read2 0 59 r3 with
                  | none => false
                  | some (_, r4) =>
                      match r4 with
                      | [] => true
                      | '.' :: frac =>
                          (frac.length == 3 || frac.length == 6) &&
                            frac.all Char.isDigit
                      | _ => false
              | _ => false
      | _ => false

/-- Split at the first character satisfying `p`, if any. -/
def splitOnFirst (p : Char → Bool) : List Char → Option (List Char × List Char)
  | [] => none
  | c :: cs =>
      if p c then some ([], cs)
      else
        match splitOnFirst p cs with
        | some (pre, post) => some (c :: pre, post)
        | none => none

/-- The offset part of `fromisoformat` (`HH:MM`, `HH:MM:SS` or
`HH:MM:SS.ffffff`; length 5, 8 or 15). -/
def isoTzOk (cs : List Char) : Bool :=
  (cs.length == 5 || cs.length == 8 || cs.length == 15) && isoTimeOk cs

/-- The time-of-day string of `fromisoformat`: an optional offset is
introduced by the first `-` (or else the first `+`). -/
def isoTimeWithTzOk (cs : List Char) : Bool :=
  match splitOnFirst (fun c => c == '-') cs with
  | some (t, tz) => isoTimeOk t && isoTzOk tz
  | none =>
      match splitOnFirst (fun c => c == '+') cs with
      | some (t, tz) => isoTimeOk t && isoTzOk tz
      | none => isoTimeOk cs

/-- `datetime.fromisoformat` (CPython ≤ 3.10 shape, see above). -/
def fromisoformat (s : String) : Option PyDate :=
  let cs := s.toList
  match readDigits 4 0 cs with
  | none => none
  | some (y, cs1) =>
      match expectChar '-' cs1 with
      | none => none
      | some cs2 =>
          match read2 1 12 cs2 with
          | none => none
          | some (m, cs3) =>
              match expectChar '-' cs3 with
              | none => none
              | some cs4 =>
                  match read2 1 31 cs4 with
                  | none => none
                  | some (d, rest) =>
                      if validYMD y m d then
                        match rest with
                        | [] => some ⟨y, m, d⟩
                        | _sep :: tcs =>
                            if tcs ≠ [] ∧ isoTimeWithTzOk tcs then
                              some ⟨y, m, d⟩
                            else none
                      else none

/-- Zero-padded rendering, as Python `strftime` does for `%m`, `%d`. -/
def pad2 (n : Nat) : String :=
  if n < 10 then "0" ++ toString n else toString n

/-- Zero-padded four-digit year as Python `strftime` renders `%Y`. -/
def pad4 (n : Nat) : String :=
  if n < 10 then "000" ++ toString n
  else if n < 100 then "00" ++ toString n
  else if n < 1000 then "0" ++ toString n
  else toString n

/-- `d.strftime('%Y-%m-%d')`. -/
def formatISODate (d : PyDate) : String :=
  pad4 d.year ++ "-" ++ pad2 d.month ++ "-" ++ pad2 d.day

/-! ### The normalizer: `clean_date_value` / `clean_data_for_json`
(`complianceNYC.py` lines 882-940). -/

/-- The format loop of `clean_date_value`: each format is tried on the
input truncated to the format string's length
(`date_str[:len(fmt.replace('%f', '000'))]`, hence 8, 8, 17 and 21
characters), and the first format that parses decides. -/
def cleanDateFirstParse (ds : String) : Option PyDate :=
  match strptimeYmd (ds.take 8) with
  | some d => some d
  | none =>
      match strptimeMdYSlash (ds.take 8) with
      | some d => some d
      | none =>
          match strptimeYmdHMS (ds.take 17) with
          | some d => some d
          | none => strptimeYmdHMSf (ds.take 21)

/-- `clean_date_value`: validates a date-like value, returning `None` for
null-ish, unparseable or pre-1900 values, and otherwise the (stripped)
input string itself. -/
def clean_date_value (v : PyVal) : Option String :=
  match v with
  | PyVal.vNone => none
  | PyVal.vStr s0 =>
      let ds := pyStrip s0
      if ds = "" ∨ pyLower ds ∈ ["nan", "null", "none", "", "invalid date"] then
        none
      else
        match cleanDateFirstParse ds with
        | some d => if 1900 ≤ d.year then some ds else none
        | none =>
            match fromisoformat (pyReplace ds "Z" "+00:00") with
            | some d => if 1900 ≤ d.year then some ds else none
            | none => none

/-- The explicit date-field allowlist of `clean_data_for_json`. -/
def dateFieldNames : List String :=
  ["issue_date", "inspection_date", "inspectiondate", "status_date",
   "filing_date", "approveddate", "originalcorrectbydate"]

/-- A field is date-cleaned when its lowercased name is on the allowlist
or contains `date`. -/
def isDateKey (k : String) : Bool :=
  dateFieldNames.contains (pyLower k) || strContains (pyLower k) "date"

/-- Per-field step of `clean_data_for_json`.  (The NaN-float branch of the
source cannot arise for the modelled string-valued rows; the string
comparison `str(value).lower() == 'nan'` is kept.) -/
def cleanField (kv : String × PyVal) : String × PyVal :=
  if kv.2 = PyVal.vNone ∨ pyLower (pyStr kv.2) = "nan" then (kv.1, PyVal.vNone)
  else if isDateKey kv.1 then (kv.1, optToVal (clean_date_value kv.2))
  else kv

/-- `clean_data_for_json`: null-coerce and date-clean every field of every
row. -/
def clean_data_for_json (data : List Row) : List Row :=
  data.map (fun item => item.map cleanField)

/-! ### The device grouper: `group_devices_by_id`
(`complianceNYC.py` lines 693-760). -/

/-- The per-device summary dict the grouper builds (the `device_groups`
values after finalization).  `latest_inspection_date` is `None` or a
`YYYY-MM-DD` string; `inspections` holds the raw rows. -/
structure DeviceRecord where
  device_id : String
  device_name : PyVal
  device_type : PyVal
  device_status : PyVal
  inspections : List Row
  latest_inspection_date : Option String
  total_inspections : Nat
  defects_exist : PyVal
  filing_status : PyVal
  house_number : PyVal
  street_name : PyVal
  bin : PyVal
deriving DecidableEq, Repr

/-- Python `d.get(k)` on the grouped device dict, for the scalar keys.
The dict's non-scalar entries (`inspections`, `total_inspections`) are
never read through `.get` by the modelled callers; any other key is
absent, hence `None` — in particular `filing_date`, which the grouped
dict does not carry. -/
def DeviceRecord.get (d : DeviceRecord) (k : String) : PyVal :=
  if k = "device_id" then PyVal.vStr d.device_id
  else if k = "device_name" then d.device_name
  else if k = "device_type" then d.device_type
  else if k = "device_status" then d.device_status
  else if k = "latest_inspection_date" then optToVal d.latest_inspection_date
  else if k = "defects_exist" then d.defects_exist
  else if k = "filing_status" then d.filing_status
  else if k = "house_number" then d.house_number
  else if k = "street_name" then d.street_name
  else if k = "bin" then d.bin
  else PyVal.vNone

/-- The in-progress group during the grouper's first pass (`latest` still
a parsed date, inspections in input order). -/
structure DeviceGroup where
  device_id : String
  device_name : PyVal
  device_type : PyVal
  device_status : PyVal
  inspections : List Row
  latest : Option PyDate
  defects_exist : PyVal
  filing_status : PyVal
  house_number : PyVal
  street_name : PyVal
  bin : PyVal
deriving DecidableEq, Repr

/-- Group creation for a first record with a given device id
(source lines 706-719). -/
def newGroup (r : Row) (id : String) : DeviceGroup where
  device_id := id
  device_name := pyGetD r "device_number" (PyVal.vStr id)
  device_type := pyGetD r "device_type" (PyVal.vStr "Unknown")
  device_status := pyGetD r "device_status" (PyVal.vStr "Unknown")
  inspections := []
  latest := none
  defects_exist := pyGetD r "defects_exist" (PyVal.vStr "No")
  filing_status := pyGetD r "filing_status" (PyVal.vStr "Unknown")
  house_number := pyGetD r "house_number" (PyVal.vStr "")
  street_name := pyGetD r "street_name" (PyVal.vStr "")
  bin := pyGetD r "bin" (pyGetD r "bin_number" (PyVal.vStr ""))

/-- The grouper's date parse: `inspection_date[:10]` against the formats
`%m/%d/%Y`, `%Y-%m-%d`, `%m-%d-%Y` in that order (source lines 727-735). -/
def parseGrouperDate (s : String) : Option PyDate :=
  match strptimeMdYSlash (s.take 10) with
  | some d => some d
  | none =>
      match strptimeYmd (s.take 10) with
      | some d => some d
      | none => strptimeMdYDash (s.take 10)

/-- The parsed date of a row's date field, when the field is truthy and
parseable. -/
def rowDateParsed (dateF : String) (r : Row) : Option PyDate :=
  let v := pyGet r dateF
  if truthy v then parseGrouperDate (pyStr v) else none

/-- The update the loop applies to a group's `latest` for one record:
keep the strictly later parsed date (source lines 725-739). -/
def latestStep (dateF : String) (acc : Option PyDate) (r : Row) : Option PyDate :=
  match rowDateParsed dateF r with
  | none => acc
  | some p =>
      match acc with
      | none => some p
      | some q => if q.key < p.key then some p else some q

/-- Processing one record into its (existing) group: append to
`inspections`; when the record's date parses and is strictly later than
the current `latest`, update `latest` and refresh the status fields from
this record (source lines 721-745). -/
def updateGroup (dateF : String) (g : DeviceGroup) (r : Row) : DeviceGroup :=
  let g1 := { g with inspections := g.inspections ++ [r] }
  match rowDateParsed dateF r with
  | none => g1
  | some p =>
      let isNewer :=
        match g1.latest with
        | none => true
        | some q => decide (q.key < p.key)
      if isNewer then
        { g1 with
          latest := some p
          device_status := pyGetD r "device_status" (PyVal.vStr "Unknown")
          defects_exist := pyGetD r "defects_exist" (PyVal.vStr "No")
          filing_status := pyGetD r "filing_status" (PyVal.vStr "Unknown") }
      else g1

/-- The device id of a record: `record.get(device_id_field)`, skipped when
falsy (source lines 700-703). -/
def recordId (didF : String) (r : Row) : Option String :=
  match pyGet r didF with
  | PyVal.vNone => none
  | PyVal.vStr s => if s = "" then none else some s

def lookupGroup (id : String) : List (String × DeviceGroup) → Option DeviceGroup
  | [] => none
  | (k, g) :: rest => if k = id then some g else lookupGroup id rest

def updateGroupList (id : String) (f : DeviceGroup → DeviceGroup) :
    List (String × DeviceGroup) → List (String × DeviceGroup)
  | [] => []
  | (k, g) :: rest =>
      if k = id then (k, f g) :: rest else (k, g) :: updateGroupList id f rest

/-- One step of the grouping pass over the input rows.  Python dicts keep
insertion order, so a new device id is appended at the end. -/
def addRecord (didF dateF : String) (groups : List (String × DeviceGroup))
    (r : Row) : List (String × DeviceGroup) :=
  match recordId didF r with
  | none => groups
  | some id =>
      let groups1 :=
        if (lookupGroup id groups).isSome then groups
        else groups ++ [(id, newGroup r id)]
      updateGroupList id (fun g => updateGroup dateF g r) groups1

def buildGroups (didF dateF : String) (data : List Row) :
    List (String × DeviceGroup) :=
  data.foldl (addRecord didF dateF) []

/-! Python `list.sort(key=..., reverse=True)`: a stable descending sort on
string keys.  When a key is `None` and the list has at least two
elements, CPython raises `TypeError` (no order between `NoneType` and
`str`; every element takes part in at least one comparison once the list
has two elements). -/

/-- Lexicographic comparison of character lists by code point — exactly
how Python compares strings. -/
def charListLe : List Char → List Char → Bool
  | [], _ => true
  | _ :: _, [] => false
  | a :: as, b :: bs =>
      if a.toNat < b.toNat then true
      else if b.toNat < a.toNat then false
      else charListLe as bs

/-- Python string `<=`. -/
def strLe (a b : String) : Bool := charListLe a.toList b.toList

theorem charListLe_total : ∀ as bs : List Char,
    charListLe as bs = true ∨ charListLe bs as = true
  | [], _ => Or.inl rfl
  | _ :: _, [] => Or.inr rfl
  | a :: as, b :: bs => by
      rcases Nat.lt_trichotomy a.toNat b.toNat with h | h | h
      · left
        simp [charListLe, h]
      · rcases charListLe_total as bs with hr | hr
        · left
          simp [charListLe, h, hr, Nat.lt_irrefl]
        · right
          simp [charListLe, h.symm, hr, Nat.lt_irrefl]
      · right
        simp [charListLe, h]

theorem charListLe_trans : ∀ as bs cs : List Char,
    charListLe as bs = true → charListLe bs cs = true →
    charListLe as cs = true
  | [], _, _, _, _ => rfl
  | _ :: _, [], _, h, _ => by cases h
  | _ :: _, _ :: _, [], _, h => by cases h
  | a :: as, b :: bs, c :: cs, h1, h2 => by
      simp only [charListLe] at h1 h2 ⊢
      by_cases hab1 : a.toNat < b.toNat
      · by_cases hbc1 : b.toNat < c.toNat
        · have hac : a.toNat < c.toNat := by omega
          simp [hac]
        · by_cases hbc2 : c.toNat < b.toNat
          · rw [if_neg hbc1, if_pos hbc2] at h2
            cases h2
          · have hac : a.toNat < c.toNat := by omega
            simp [hac]
      · by_cases hab2 : b.toNat < a.toNat
        · rw [if_neg hab1, if_pos hab2] at h1
          cases h1
        · by_cases hbc1 : b.toNat < c.toNat
          · have hac : a.toNat < c.toNat := by omega
            simp [hac]
          · by_cases hbc2 : c.toNat < b.toNat
            · rw [if_neg hbc1, if_pos hbc2] at h2
              cases h2
            · rw [if_neg hab1, if_neg hab2] at h1
              rw [if_neg hbc1, if_neg hbc2] at h2
              rw [if_neg (show ¬ a.toNat < c.toNat by omega),
                if_neg (show ¬ c.toNat < a.toNat by omega)]
              exact charListLe_trans as bs cs h1 h2

/-- Descending order on the sort keys (ties keep list order, matching
Python's stable sort). -/
def keyGe {α : Type} (key : α → String) (a b : α) : Prop :=
  strLe (key b) (key a) = true

instance {α : Type} (key : α → String) : DecidableRel (keyGe key) :=
  fun a b => inferInstanceAs (Decidable (strLe (key b) (key a) = true))

instance {α : Type} (key : α → String) : IsTotal α (keyGe key) :=
  ⟨fun a b => (charListLe_total (key b).toList (key a).toList).imp id id⟩

instance {α : Type} (key : α → String) : IsTrans α (keyGe key) :=
  ⟨fun _ _ _ hab hbc =>
    charListLe_trans _ _ _ hbc hab⟩

def sortKeyTypeError : String :=
  "TypeError: unsupported comparison between NoneType and str"

/-- `list.sort(key=..., reverse=True)` with a key that is a string or
`None`: raises on a `None` key once two elements are compared, otherwise
a stable descending sort. -/
def pySortDescOnKey {α : Type} (key : α → Option String) (l : List α) :
    Except String (List α) :=
  if 2 ≤ l.length ∧ l.any (fun x => (key x).isNone) then
    Except.error sortKeyTypeError
  else
    Except.ok (List.insertionSort (keyGe (fun x => (key x).getD "")) l)

/-- The per-device inspection sort key `x.get(date_field, '')`: the
default applies only when the field is absent; a field present with
value `None` yields key `None`. -/
def inspSortKey (dateF : String) (r : Row) : Option String :=
  match rowGet? r dateF with
  | none => some ""
  | some (PyVal.vStr s) => some s
  | some PyVal.vNone => none

/-- Finalization of one group (source lines 747-755): sort its
inspections by raw date string descending, set `total_inspections`, and
render `latest` via `strftime('%Y-%m-%d')`. -/
def finalizeGroup (dateF : String) (g : DeviceGroup) : Except String DeviceRecord :=
  match pySortDescOnKey (inspSortKey dateF) g.inspections with
  | Except.error e => Except.error e
  | Except.ok sorted =>
      Except.ok {
        device_id := g.device_id
        device_name := g.device_name
        device_type := g.device_type
        device_status := g.device_status
        inspections := sorted
        latest_inspection_date := g.latest.map formatISODate
        total_inspections := sorted.length
        defects_exist := g.defects_exist
        filing_status := g.filing_status
        house_number := g.house_number
        street_name := g.street_name
        bin := g.bin }

/-- The loop `for device_data in device_groups.values(): ...` over the
fallible finalization: the first raised error propagates. -/
def exceptMap {α β : Type} (f : α → Except String β) :
    List α → Except String (List β)
  | [] => Except.ok []
  | x :: xs =>
      match f x with
      | Except.error e => Except.error e
      | Except.ok y =>
          match exceptMap f xs with
          | Except.error e => Except.error e
          | Except.ok ys => Except.ok (y :: ys)

/-- `group_devices_by_id(data, device_id_field, date_field)`: group rows
by device id, finalize each group, then sort the devices by
`x.get('latest_inspection_date', '')` descending — that key is the
stored value, which is `None` for a device none of whose dates parsed
(source lines 693-760). -/
def group_devices_by_id (data : List Row) (didF dateF : String) :
    Except String (List DeviceRecord) :=
  match exceptMap (fun p => finalizeGroup dateF p.2) (buildGroups didF dateF data) with
  | Except.error e => Except.error e
  | Except.ok finals =>
      pySortDescOnKey (fun d => d.latest_inspection_date) finals

/-- The rows of the input that belong to a given device id (the grouper
partitions the input by `recordId`). -/
def deviceRows (didF : String) (data : List Row) (id : String) : List Row :=
  data.filter (fun r => decide (recordId didF r = some id))

/-- The maximum parsed date over a list of rows, exactly as the grouping
pass accumulates it. -/
def maxParsedDate (dateF : String) (rows : List Row) : Option PyDate :=
  rows.foldl (latestStep dateF) none

/-! ### Property identifiers (`PropertyIdentifiers` dataclass, lines 36-45). -/

structure PropertyIdentifiers where
  address : String
  bin : Option String := none
  bbl : Option String := none
  borough : Option String := none
  block : Option String := none
  lot : Option String := none
  zip_code : Option String := none
deriving DecidableEq, Repr

/-- The identifiers `fallback_property_search` builds from the single HPD
violations row it matched (source lines 256-272): `bin` is the row's
`buildingid`, and `bbl` is the f-string concatenation
`boro + block + lot` of the row's fields with `''` defaults (no
zero-padding). -/
def fallback_identifiers_of_match (m : Row) : PropertyIdentifiers where
  address := pyStrip (pyStr (pyGetD m "housenumber" (PyVal.vStr "")) ++ " " ++
    pyStr (pyGetD m "streetname" (PyVal.vStr "")))
  bin :=
    match pyGet m "buildingid" with
    | PyVal.vNone => none
    | PyVal.vStr s => some s
  bbl := some (pyStr (pyGetD m "boro" (PyVal.vStr "")) ++
    pyStr (pyGetD m "block" (PyVal.vStr "")) ++
    pyStr (pyGetD m "lot" (PyVal.vStr "")))
  borough :=
    match pyGet m "boro" with
    | PyVal.vNone => none
    | PyVal.vStr s => some s
  block :=
    match pyGet m "block" with
    | PyVal.vNone => none
    | PyVal.vStr s => some s
  lot :=
    match pyGet m "lot" with
    | PyVal.vNone => none
    | PyVal.vStr s => some s
  zip_code :=
    match pyGet m "zip" with
    | PyVal.vNone => none
    | PyVal.vStr s => some s

/-- `get_property_identifiers` (lines 199-215): the primary GeoSearch
result wins; otherwise the fallback HPD search's result.  Both network
calls are abstracted as their returned identifiers. -/
def get_property_identifiers (geo fallback : Option PropertyIdentifiers) :
    Option PropertyIdentifiers :=
  match geo with
  | some ids => some ids
  | none => fallback

/-! ### The multi-key search loop shared by `gather_hpd_violations` and
`gather_dob_violations` (lines 315-363 and 405-453): strategies BIN, BBL,
Block/Lot are attempted in order; an attempt's fetch is abstracted as a
function from strategy to `Option (List Row)` (`none` models a raised
request exception, which the loop skips). -/

inductive StrategyKind where
  | byBin : StrategyKind
  | byBbl : StrategyKind
  | byBlockLot : StrategyKind
deriving DecidableEq, Repr

/-- The ordered strategy list built from the identifiers (BIN when
truthy, then BBL when truthy, then Block/Lot when both truthy). -/
def buildPlan (ids : PropertyIdentifiers) : List StrategyKind :=
  (if optTruthy ids.bin then [StrategyKind.byBin] else []) ++
  (if optTruthy ids.bbl then [StrategyKind.byBbl] else []) ++
  (if optTruthy ids.block && optTruthy ids.lot then [StrategyKind.byBlockLot] else [])

/-- `record.get('bin') == identifiers.bin` for a known BIN. -/
def binMatches (ids : PropertyIdentifiers) (r : Row) : Bool :=
  match ids.bin with
  | some b => pyGet r "bin" == PyVal.vStr b
  | none => false

/-- The outcome of one attempt after the loop's post-processing: an
exception or an empty fetch means "continue" (`[]`); a non-empty fetch
from the Block/Lot strategy with a known BIN is filtered to rows whose
`bin` matches, and if every row drops the attempt is treated as empty
(source lines 346-353 and 436-443). -/
def attemptResult (ids : PropertyIdentifiers)
    (fetch : StrategyKind → Option (List Row)) (k : StrategyKind) : List Row :=
  match fetch k with
  | none => []
  | some data =>
      if data.isEmpty then []
      else if k = StrategyKind.byBlockLot && optTruthy ids.bin then
        data.filter (binMatches ids)
      else data

def multiKeySearchGo (ids : PropertyIdentifiers)
    (fetch : StrategyKind → Option (List Row)) : List StrategyKind → List Row
  | [] => []
  | k :: rest =>
      let r := attemptResult ids fetch k
      if r.isEmpty then multiKeySearchGo ids fetch rest else r

/-- The violations found by the strategy loop: the first attempt whose
post-processed result is non-empty wins; otherwise no rows. -/
def multiKeySearch (ids : PropertyIdentifiers)
    (fetch : StrategyKind → Option (List Row)) : List Row :=
  multiKeySearchGo ids fetch (buildPlan ids)

/-- The strategies the loop actually executes: every failing attempt up
to and including the first successful one. -/
def executedAttemptsGo (ids : PropertyIdentifiers)
    (fetch : StrategyKind → Option (List Row)) :
    List StrategyKind → List StrategyKind
  | [] => []
  | k :: rest =>
      if (attemptResult ids fetch k).isEmpty then
        k :: executedAttemptsGo ids fetch rest
      else [k]

def executedAttempts (ids : PropertyIdentifiers)
    (fetch : StrategyKind → Option (List Row)) : List StrategyKind :=
  executedAttemptsGo ids fetch (buildPlan ids)

/-- The strategy whose result the loop returned, if any. -/
def successfulAttemptGo (ids : PropertyIdentifiers)
    (fetch : StrategyKind → Option (List Row)) :
    List StrategyKind → Option StrategyKind
  | [] => none
  | k :: rest =>
      if (attemptResult ids fetch k).isEmpty then
        successfulAttemptGo ids fetch rest
      else some k

def successfulAttempt (ids : PropertyIdentifiers)
    (fetch : StrategyKind → Option (List Row)) : Option StrategyKind :=
  successfulAttemptGo ids fetch (buildPlan ids)

/-! ### Scores and the compliance record
(`create_compliance_record`, lines 942-1054; `create_empty_record`,
lines 1056-1068; the gatherer-side scores at lines 385-395 and 521-531). -/

/-- The HPD compliance score `gather_hpd_violations` computes and stores
under `compliance_data['hpd_compliance_score']` (lines 385-395): a tier
table on the active-violation count. -/
def gather_hpd_compliance_score (activeCount : Nat) : ℚ :=
  if activeCount = 0 then 100
  else if activeCount ≤ 5 then 85
  else if activeCount ≤ 15 then 70
  else if activeCount ≤ 30 then 50
  else 25

/-- The DOB compliance score `gather_dob_violations` computes and stores
under `compliance_data['dob_compliance_score']` (lines 521-531). -/
def gather_dob_compliance_score (activeCount : Nat) : ℚ :=
  if activeCount = 0 then 100
  else if activeCount ≤ 3 then 85
  else if activeCount ≤ 10 then 70
  else if activeCount ≤ 20 then 50
  else 25

/-- The `compliance_data` dict as populated by the gatherers and read by
`create_compliance_record`.  The count keys are read with default 0; the
equipment lists are the grouped device dicts; the gatherer-side
`*_compliance_score` keys are carried along (they are written at lines
387-395 and 523-531 but `create_compliance_record` recomputes scores
from the counts instead of reading them). -/
structure ComplianceData where
  hpd_violations_total : Nat := 0
  hpd_violations_active : Nat := 0
  hpd_compliance_score : ℚ := 100
  hpd_violations_data : String := "[]"
  dob_violations_total : Nat := 0
  dob_violations_active : Nat := 0
  dob_compliance_score : ℚ := 100
  dob_violations_data : String := "[]"
  elevator_inspections : List DeviceRecord := []
  boiler_inspections : List DeviceRecord := []
  electrical_permits : List DeviceRecord := []
deriving DecidableEq, Repr

/-- The `ComplianceRecord` dataclass (lines 47-88).  Scores are modelled
as exact rationals.  The three `*_data` JSON-string fields for equipment
hold the grouped records here; the `json.dumps(clean_data_for_json(...))`
serialization step is not modelled (no modelled consumer reads it). -/
structure ComplianceRecord where
  address : String
  bin : Option String
  bbl : Option String
  borough : Option String
  block : Option String
  lot : Option String
  zip_code : Option String
  hpd_violations_total : Nat := 0
  hpd_violations_active : Nat := 0
  dob_violations_total : Nat := 0
  dob_violations_active : Nat := 0
  elevator_devices_total : Nat := 0
  elevator_devices_active : Nat := 0
  boiler_devices_total : Nat := 0
  electrical_permits_total : Nat := 0
  electrical_permits_active : Nat := 0
  hpd_compliance_score : ℚ := 100
  dob_compliance_score : ℚ := 100
  elevator_compliance_score : ℚ := 100
  electrical_compliance_score : ℚ := 100
  overall_compliance_score : ℚ := 100
  hpd_violations_data : String := "[]"
  dob_violations_data : String := "[]"
  elevator_data : List DeviceRecord := []
  boiler_data : List DeviceRecord := []
  electrical_data : List DeviceRecord := []
  processed_at : String := ""
  data_sources : String := ""
deriving DecidableEq, Repr

/-- Devices whose `device_status` is `'Active'` (lines 960, 964). -/
def activeDeviceCount (devs : List DeviceRecord) : Nat :=
  (devs.filter (fun e => e.get "device_status" == PyVal.vStr "Active")).length

/-- The permit statuses counted as active (lines 982, 986). -/
def electricalStatusList : List String :=
  ["Approved", "Job in Process", "Active", "Permit Issued"]

/-- Permits whose `filing_status` is in the active list. -/
def electricalActiveCount (perms : List DeviceRecord) : Nat :=
  (perms.filter (fun e =>
    match e.get "filing_status" with
    | PyVal.vStr s => electricalStatusList.contains s
    | PyVal.vNone => false)).length

def strptimeValueError : String :=
  "ValueError: time data does not match format"

/-- The `recent_permits` count (lines 997-999): permits whose
`filing_date` value is truthy and whose `strptime(..[:10], '%Y-%m-%d')`
year is at least `now.year - 2`; a truthy but unparseable value makes
`strptime` raise. -/
def countRecentPermits (nowYear : Int) :
    List DeviceRecord → Except String Nat
  | [] => Except.ok 0
  | e :: rest =>
      if truthy (e.get "filing_date") then
        match strptimeYmd ((pyStr (e.get "filing_date")).take 10) with
        | none => Except.error strptimeValueError
        | some d =>
            match countRecentPermits nowYear rest with
            | Except.ok n =>
                Except.ok (if nowYear - 2 ≤ (d.year : Int) then n + 1 else n)
            | Except.error err => Except.error err
      else countRecentPermits nowYear rest

/-- The electrical compliance score (lines 993-1005): 85 with no permits;
otherwise 70 when no permit counts as recent, else 90 when some permit
is active, else 100. -/
def electrical_score_of (perms : List DeviceRecord) (nowYear : Int) :
    Except String ℚ :=
  if 0 < perms.length then
    match countRecentPermits nowYear perms with
    | Except.error e => Except.error e
    | Except.ok recent =>
        if recent = 0 then Except.ok 70
        else if 0 < electricalActiveCount perms then Except.ok 90
        else Except.ok 100
  else Except.ok 85

/-- `create_compliance_record` (lines 942-1054): counts and scores are
recomputed from the gathered data; `processed_at` receives the
caller-side timestamp, `nowYear` stands for `datetime.now().year`. -/
def create_compliance_record (ids : PropertyIdentifiers) (cd : ComplianceData)
    (nowYear : Int) (now : String) : Except String ComplianceRecord :=
  let hpd_total := cd.hpd_violations_total
  let hpd_active := cd.hpd_violations_active
  let dob_total := cd.dob_violations_total
  let dob_active := cd.dob_violations_active
  let elevator_total := cd.elevator_inspections.length
  let elevator_active := activeDeviceCount cd.elevator_inspections
  let boiler_total := cd.boiler_inspections.length
  let electrical_total := cd.electrical_permits.length
  let electrical_active := electricalActiveCount cd.electrical_permits
  let hpd_score : ℚ :=
    if 0 < hpd_total then ((max 0 (100 - 10 * (hpd_active : ℤ)) : ℤ) : ℚ)
    else 100
  let dob_score : ℚ :=
    if 0 < dob_total then ((max 0 (100 - 15 * (dob_active : ℤ)) : ℤ) : ℚ)
    else 100
  let elevator_score : ℚ :=
    if 0 < elevator_total then
      (elevator_active : ℚ) / (elevator_total : ℚ) * 100
    else 100
  match electrical_score_of cd.electrical_permits nowYear with
  | Except.error e => Except.error e
  | Except.ok electrical_score =>
      Except.ok {
        address := ids.address
        bin := ids.bin
        bbl := ids.bbl
        borough := ids.borough
        block := ids.block
        lot := ids.lot
        zip_code := ids.zip_code
        hpd_violations_total := hpd_total
        hpd_violations_active := hpd_active
        dob_violations_total := dob_total
        dob_violations_active := dob_active
        elevator_devices_total := elevator_total
        elevator_devices_active := elevator_active
        boiler_devices_total := boiler_total
        electrical_permits_total := electrical_total
        electrical_permits_active := electrical_active
        hpd_compliance_score := hpd_score
        dob_compliance_score := dob_score
        elevator_compliance_score := elevator_score
        electrical_compliance_score := electrical_score
        overall_compliance_score :=
          hpd_score * 0.3 + dob_score * 0.3 + elevator_score * 0.2 +
            electrical_score * 0.2
        hpd_violations_data := cd.hpd_violations_data
        dob_violations_data := cd.dob_violations_data
        elevator_data := cd.elevator_inspections
        boiler_data := cd.boiler_inspections
        electrical_data := cd.electrical_permits
        processed_at := now
        data_sources := "NYC_Open_Data,NYC_Planning_GeoSearch" }

/-- `create_empty_record` (lines 1056-1068): dataclass defaults with
`data_sources = "FAILED"`. -/
def create_empty_record (address now : String) : ComplianceRecord where
  address := address
  bin := none
  bbl := none
  borough := none
  block := none
  lot := none
  zip_code := none
  processed_at := now
  data_sources := "FAILED"

/-- `process_property` (lines 177-197): resolve identifiers (primary,
then fallback); on failure return the empty record, otherwise gather
compliance data (abstracted as a function of the identifiers) and build
the record. -/
def process_property (address now : String)
    (geo fallback : Option PropertyIdentifiers)
    (gather : PropertyIdentifiers → ComplianceData) (nowYear : Int) :
    Except String ComplianceRecord :=
  match get_property_identifiers geo fallback with
  | none => Except.ok (create_empty_record address now)
  | some ids => create_compliance_record ids (gather ids) nowYear now

/-! ### Definitions taken from the specification's wording, for
comparison with the code-derived definitions above. -/

/-- The spec's emitted-date shape, the regular expression
`\d\d\d\d-\d\d-\d\d` anchored at both ends. -/
def isIsoDateShape (s : String) : Bool :=
  match s.toList with
  | [y1, y2, y3, y4, h1, m1, m2, h2, d1, d2] =>
      y1.isDigit && y2.isDigit && y3.isDigit && y4.isDigit && h1 == '-' &&
        m1.isDigit && m2.isDigit && h2 == '-' && d1.isDigit && d2.isDigit
  | _ => false

/-- The spec's "rounded to one decimal". -/
def specRound1 (q : ℚ) : ℚ :=
  ((round (q * 10) : ℤ) : ℚ) / 10

/-- The spec's expectation for the fallback geocoder's BBL: borough code
concatenated with the block zero-padded to five digits and the lot
zero-padded to four digits. -/
def specPaddedBbl (boro block lot : String) : String :=
  boro ++ (String.mk (List.replicate (5 - block.length) '0')) ++ block ++
    (String.mk (List.replicate (4 - lot.length) '0')) ++ lot

/-! ### Derived score abbreviations (the right-hand sides of the score
computations inside `create_compliance_record`, named so that the record
characterization below can be stated once and reused). -/

def hpdScoreOf (cd : ComplianceData) : ℚ :=
  if 0 < cd.hpd_violations_total then
    ((max 0 (100 - 10 * (cd.hpd_violations_active : ℤ)) : ℤ) : ℚ)
  else 100

def dobScoreOf (cd : ComplianceData) : ℚ :=
  if 0 < cd.dob_violations_total then
    ((max 0 (100 - 15 * (cd.dob_violations_active : ℤ)) : ℤ) : ℚ)
  else 100

def elevatorScoreOf (cd : ComplianceData) : ℚ :=
  if 0 < cd.elevator_inspections.length then
    (activeDeviceCount cd.elevator_inspections : ℚ) /
      (cd.elevator_inspections.length : ℚ) * 100
  else 100

def electricalScoreOf (cd : ComplianceData) : ℚ :=
  if 0 < cd.electrical_permits.length then 70 else 85

instance exceptDecEq {ε α : Type} [DecidableEq ε] [DecidableEq α] :
    DecidableEq (Except ε α) := fun x y =>
  match x, y with
  | Except.ok a, Except.ok b =>
      if h : a = b then isTrue (by rw [h])
      else isFalse (fun hc => h (Except.ok.inj hc))
  | Except.error e, Except.error f =>
      if h : e = f then isTrue (by rw [h])
      else isFalse (fun hc => h (Except.error.inj hc))
  | Except.ok _, Except.error _ => isFalse (fun hc => Except.noConfusion hc)
  | Except.error _, Except.ok _ => isFalse (fun hc => Except.noConfusion hc)

/-! ### Concrete data used by the per-claim theorems below. -/

def exIds : PropertyIdentifiers := { address := "1 MAIN ST" }

/-- Compliance data with exactly one active HPD violation (the totals a
gatherer run stores: total = active, plus the tier score it writes). -/
def c1Data : ComplianceData :=
  { hpd_violations_total := 1, hpd_violations_active := 1,
    hpd_compliance_score := gather_hpd_compliance_score 1 }

def c1WitnessData : ComplianceData :=
  { hpd_violations_total := 2, hpd_violations_active := 2 }

def c1WitnessRec : ComplianceRecord :=
  { address := "1 MAIN ST", bin := none, bbl := none, borough := none,
    block := none, lot := none, zip_code := none,
    hpd_violations_total := 2, hpd_violations_active := 2,
    hpd_compliance_score := 80, electrical_compliance_score := 85,
    overall_compliance_score := 91,
    data_sources := "NYC_Open_Data,NYC_Planning_GeoSearch" }

/-- The spec's S4 fallback row. -/
def s4FallbackRow : Row :=
  [("buildingid", PyVal.vStr "1058037"), ("housenumber", PyVal.vStr "1662"),
   ("streetname", PyVal.vStr "PARK AVENUE"), ("boro", PyVal.vStr "1"),
   ("block", PyVal.vStr "1642"), ("lot", PyVal.vStr "29"),
   ("zip", PyVal.vStr "10035")]

/-- A generic fallback-match row with all fields present as strings. -/
def fallbackRowOf (bid hn sn boro blk lot zip : String) : Row :=
  [("buildingid", PyVal.vStr bid), ("housenumber", PyVal.vStr hn),
   ("streetname", PyVal.vStr sn), ("boro", PyVal.vStr boro),
   ("block", PyVal.vStr blk), ("lot", PyVal.vStr lot),
   ("zip", PyVal.vStr zip)]

/-- Identifiers with a known BIN and BBL but no block/lot. -/
def c3Ids : PropertyIdentifiers :=
  { address := "X", bin := some "B1", bbl := some "1000010001" }

/-- A violations row carrying a different BIN. -/
def c3Row : Row :=
  [("bin", PyVal.vStr "B2"), ("violationid", PyVal.vStr "V1")]

/-- A fetch where the BIN attempt is empty and the BBL attempt returns
only the mismatching row. -/
def c3Fetch : StrategyKind → Option (List Row) := fun k =>
  match k with
  | StrategyKind.byBin => some []
  | StrategyKind.byBbl => some [c3Row]
  | StrategyKind.byBlockLot => none

/-- Identifiers with BIN and block/lot, for the block/lot filter. -/
def c3bIds : PropertyIdentifiers :=
  { address := "X", bin := some "B1", block := some "1642", lot := some "29" }

def c3bRowMatch : Row := [("bin", PyVal.vStr "B1")]

def c3bRowOther : Row := [("bin", PyVal.vStr "B9")]

def c3bFetch : StrategyKind → Option (List Row) := fun k =>
  match k with
  | StrategyKind.byBin => some []
  | StrategyKind.byBbl => some []
  | StrategyKind.byBlockLot => some [c3bRowOther, c3bRowMatch]

def c4Row : Row := [("bin", PyVal.vStr "B1"), ("violationid", PyVal.vStr "V9")]

/-- A fetch whose first (BIN) attempt already succeeds. -/
def c4Fetch : StrategyKind → Option (List Row) := fun k =>
  match k with
  | StrategyKind.byBin => some [c4Row]
  | StrategyKind.byBbl => some []
  | StrategyKind.byBlockLot => some []

/-- Like `c4Fetch` on the executed prefix but different on the attempts
the loop never runs. -/
def c4FetchLater : StrategyKind → Option (List Row) := fun k =>
  match k with
  | StrategyKind.byBin => some [c4Row]
  | StrategyKind.byBbl => some [c3Row]
  | StrategyKind.byBlockLot => none

def c6Row : Row := [("inspection_date", PyVal.vStr "2023-1-5")]

def c6WitnessData : List Row :=
  [[("inspection_date", PyVal.vStr "  2023-01-15  ")]]

/-- The row the normalizer emits for `c6WitnessData`. -/
def c6WitnessOutRow : Row := [("inspection_date", PyVal.vStr "2023-01-15")]

def c7Row1 : Row :=
  [("device_number", PyVal.vStr "D"), ("status_date", PyVal.vStr "02/01/2021")]

def c7Row2 : Row :=
  [("device_number", PyVal.vStr "D"), ("status_date", PyVal.vStr "2020-01-01")]

/-- The single row used to witness the grouper invariant. -/
def c7wRow : Row :=
  [("device_number", PyVal.vStr "E1"), ("status_date", PyVal.vStr "2024-05-01")]

/-- The device dict the grouper builds from `[c7wRow]`. -/
def c7wDev : DeviceRecord :=
  { device_id := "E1", device_name := PyVal.vStr "E1",
    device_type := PyVal.vStr "Unknown", device_status := PyVal.vStr "Unknown",
    inspections := [c7wRow], latest_inspection_date := some "2024-05-01",
    total_inspections := 1, defects_exist := PyVal.vStr "No",
    filing_status := PyVal.vStr "Unknown", house_number := PyVal.vStr "",
    street_name := PyVal.vStr "", bin := PyVal.vStr "" }

/-- The device dict the grouper builds from `[c7Row1, c7Row2]`: the
inspections list is sorted by raw date string descending (so the
MM/DD/YYYY-format row sorts last), while `latest_inspection_date` is the
maximum of the parsed dates. -/
def c7CexDev : DeviceRecord :=
  { device_id := "D", device_name := PyVal.vStr "D",
    device_type := PyVal.vStr "Unknown", device_status := PyVal.vStr "Unknown",
    inspections := [c7Row2, c7Row1], latest_inspection_date := some "2021-02-01",
    total_inspections := 2, defects_exist := PyVal.vStr "No",
    filing_status := PyVal.vStr "Unknown", house_number := PyVal.vStr "",
    street_name := PyVal.vStr "", bin := PyVal.vStr "" }

def c5PermitRow : Row :=
  [("filing_number", PyVal.vStr "E1"), ("filing_date", PyVal.vStr "2025-06-01"),
   ("filing_status", PyVal.vStr "Approved")]

/-- The device dict the grouper builds from `c5PermitRow` (note: no
`filing_date` key). -/
def c5Dev : DeviceRecord :=
  { device_id := "E1", device_name := PyVal.vStr "E1",
    device_type := PyVal.vStr "Unknown", device_status := PyVal.vStr "Unknown",
    inspections := [c5PermitRow], latest_inspection_date := some "2025-06-01",
    total_inspections := 1, defects_exist := PyVal.vStr "No",
    filing_status := PyVal.vStr "Approved", house_number := PyVal.vStr "",
    street_name := PyVal.vStr "", bin := PyVal.vStr "" }

def c8RowA : Row :=
  [("boiler_id", PyVal.vStr "A"), ("inspection_date", PyVal.vStr "garbage")]

def c8RowB : Row :=
  [("boiler_id", PyVal.vStr "B"), ("inspection_date", PyVal.vStr "2023-01-01")]

/-- An elevator device summary with a given id and status. -/
def c9Dev (id status : String) : DeviceRecord :=
  { device_id := id, device_name := PyVal.vStr id,
    device_type := PyVal.vStr "Unknown", device_status := PyVal.vStr status,
    inspections := [], latest_inspection_date := none, total_inspections := 0,
    defects_exist := PyVal.vStr "No", filing_status := PyVal.vStr "Unknown",
    house_number := PyVal.vStr "", street_name := PyVal.vStr "",
    bin := PyVal.vStr "" }

/-- Three elevator devices, one active: the elevator score is 100/3. -/
def c9Data : ComplianceData :=
  { elevator_inspections := [c9Dev "A" "Active", c9Dev "B" "Out", c9Dev "C" "Out"] }

def c9WitnessRec : ComplianceRecord :=
  { address := "1 MAIN ST", bin := none, bbl := none, borough := none,
    block := none, lot := none, zip_code := none,
    electrical_compliance_score := 85, overall_compliance_score := 97,
    data_sources := "NYC_Open_Data,NYC_Planning_GeoSearch" }

/-! ## Helper lemmas -/

/-- A grouped device dict has no `filing_date` key, so `get` yields
`None`. -/
theorem deviceGet_filing_date (e : DeviceRecord) :
    e.get "filing_date" = PyVal.vNone := rfl

theorem countRecentPermits_cons (nowYear : Int) (e : DeviceRecord)
    (rest : List DeviceRecord) :
    countRecentPermits nowYear (e :: rest) = countRecentPermits nowYear rest :=
  rfl

/-- On grouped device dicts no permit ever counts as recent: the
`filing_date` read is always `None`. -/
theorem countRecentPermits_eq_zero (nowYear : Int) (l : List DeviceRecord) :
    countRecentPermits nowYear l = Except.ok 0 := by
  induction l with
  | nil => rfl
  | cons e rest ih => rw [countRecentPermits_cons]; exact ih

/-- Consequently the electrical score of a grouped permit list is 70
whenever the list is non-empty, and 85 otherwise. -/
theorem electrical_score_of_eq (perms : List DeviceRecord) (nowYear : Int) :
    electrical_score_of perms nowYear =
      Except.ok (if 0 < perms.length then (70 : ℚ) else 85) := by
  unfold electrical_score_of
  rw [countRecentPermits_eq_zero]
  by_cases h : 0 < perms.length
  · simp [h]
  · simp [h]

/-- `create_compliance_record` never raises on grouped data and produces
exactly this record. -/
theorem create_compliance_record_eq (ids : PropertyIdentifiers)
    (cd : ComplianceData) (nowYear : Int) (now : String) :
    create_compliance_record ids cd nowYear now = Except.ok {
      address := ids.address
      bin := ids.bin
      bbl := ids.bbl
      borough := ids.borough
      block := ids.block
      lot := ids.lot
      zip_code := ids.zip_code
      hpd_violations_total := cd.hpd_violations_total
      hpd_violations_active := cd.hpd_violations_active
      dob_violations_total := cd.dob_violations_total
      dob_violations_active := cd.dob_violations_active
      elevator_devices_total := cd.elevator_inspections.length
      elevator_devices_active := activeDeviceCount cd.elevator_inspections
      boiler_devices_total := cd.boiler_inspections.length
      electrical_permits_total := cd.electrical_permits.length
      electrical_permits_active := electricalActiveCount cd.electrical_permits
      hpd_compliance_score := hpdScoreOf cd
      dob_compliance_score := dobScoreOf cd
      elevator_compliance_score := elevatorScoreOf cd
      electrical_compliance_score := electricalScoreOf cd
      overall_compliance_score := hpdScoreOf cd * 0.3 + dobScoreOf cd * 0.3 +
        elevatorScoreOf cd * 0.2 + electricalScoreOf cd * 0.2
      hpd_violations_data := cd.hpd_violations_data
      dob_violations_data := cd.dob_violations_data
      elevator_data := cd.elevator_inspections
      boiler_data := cd.boiler_inspections
      electrical_data := cd.electrical_permits
      processed_at := now
      data_sources := "NYC_Open_Data,NYC_Planning_GeoSearch" } := by
  unfold create_compliance_record
  rw [electrical_score_of_eq]
  simp only [hpdScoreOf, dobScoreOf, elevatorScoreOf, electricalScoreOf]

/-! ## Claim C1 -/

/-- C1 counterexample: with exactly one active HPD violation the
assembled record's `hpd_compliance_score` is 90, while the claim's tier
table (the score the gatherer computed) gives 85. -/
theorem c1_counterexample :
    (create_compliance_record exIds c1Data 2026 "").toOption.map
      (fun r => r.hpd_compliance_score) = some 90 ∧
    gather_hpd_compliance_score 1 = 85 ∧ ((90 : ℚ) ≠ 85) := by
  refine ⟨rfl, rfl, by norm_num⟩

/-- C1 (amended): for a run whose HPD gatherer found `a` active
violations (it stores total = active = a), the record's
`hpd_compliance_score` is 100 when a = 0 and max(0, 100 − 10·a)
otherwise — not the tier table — and the record does not depend on the
tier score the gatherer stored under `hpd_compliance_score`. -/
theorem c1_hpd_record_score (a : Nat) (ids : PropertyIdentifiers)
    (cd : ComplianceData) (nowYear : Int) (now : String) (rec : ComplianceRecord)
    (h1 : cd.hpd_violations_total = a) (h2 : cd.hpd_violations_active = a)
    (h3 : create_compliance_record ids cd nowYear now = Except.ok rec) :
    rec.hpd_compliance_score =
      (if a = 0 then (100 : ℚ) else ((max 0 (100 - 10 * (a : ℤ)) : ℤ) : ℚ)) ∧
    ∀ q : ℚ, create_compliance_record ids { cd with hpd_compliance_score := q }
        nowYear now = create_compliance_record ids cd nowYear now := by
  constructor
  · have h4 := create_compliance_record_eq ids cd nowYear now
    rw [h3] at h4
    injection h4 with h5
    subst h5
    show hpdScoreOf cd = _
    rw [hpdScoreOf, h1, h2]
    by_cases ha : a = 0
    · simp [ha]
    · simp [ha, Nat.pos_of_ne_zero ha]
  · intro q
    rfl

/-- C1 witness: at a = 2 the record's HPD score is 80. -/
theorem c1_hpd_record_score_witness :
    c1WitnessRec.hpd_compliance_score =
      (if (2 : Nat) = 0 then (100 : ℚ)
       else ((max 0 (100 - 10 * ((2 : Nat) : ℤ)) : ℤ) : ℚ)) :=
  (c1_hpd_record_score 2 exIds c1WitnessData 2026 "" c1WitnessRec rfl rfl
    (by rw [create_compliance_record_eq]
        simp only [c1WitnessRec, c1WitnessData, exIds, hpdScoreOf, dobScoreOf,
          elevatorScoreOf, electricalScoreOf, Except.ok.injEq,
          ComplianceRecord.mk.injEq]
        norm_num [activeDeviceCount, electricalActiveCount])).1

/-! ## Claim C2 -/

/-- C2 counterexample: on the spec's S4 fallback row the code returns
bbl "1164229" (plain concatenation), not the padded "1016420029" the
claim states. -/
theorem c2_counterexample :
    (fallback_identifiers_of_match s4FallbackRow).bbl = some "1164229" ∧
    (fallback_identifiers_of_match s4FallbackRow).bin = some "1058037" ∧
    specPaddedBbl "1" "1642" "29" = "1016420029" ∧
    some "1164229" ≠ some ("1016420029" : String) := by
  refine ⟨by decide, by decide, by decide, by decide⟩

/-- C2 (amended): when the primary geosearch yields nothing and the
fallback lookup returns a row, the geocoder returns that row's
identifiers, with `bin` the row's `buildingid` and `bbl` the plain
concatenation boro + block + lot without any zero-padding (for the S4
row, "1164229"). -/
theorem c2_fallback_identifiers (bid hn sn boro blk lot zip : String) :
    (fallback_identifiers_of_match (fallbackRowOf bid hn sn boro blk lot zip)).bbl =
      some (boro ++ blk ++ lot) ∧
    (fallback_identifiers_of_match (fallbackRowOf bid hn sn boro blk lot zip)).bin =
      some bid ∧
    (fallback_identifiers_of_match (fallbackRowOf bid hn sn boro blk lot zip)).block =
      some blk ∧
    (fallback_identifiers_of_match (fallbackRowOf bid hn sn boro blk lot zip)).lot =
      some lot ∧
    get_property_identifiers none
        (some (fallback_identifiers_of_match (fallbackRowOf bid hn sn boro blk lot zip))) =
      some (fallback_identifiers_of_match (fallbackRowOf bid hn sn boro blk lot zip)) :=
  ⟨rfl, rfl, rfl, rfl, rfl⟩

/-! ## Claim C3 -/

/-- The Block/Lot attempt with a known BIN: empty fetches stay empty,
anything else is post-filtered by BIN. -/
theorem attemptResult_blockLot (ids : PropertyIdentifiers)
    (fetch : StrategyKind → Option (List Row)) (data : List Row)
    (hf : fetch StrategyKind.byBlockLot = some data)
    (h : optTruthy ids.bin = true) :
    attemptResult ids fetch StrategyKind.byBlockLot =
      if data.isEmpty then [] else data.filter (binMatches ids) := by
  unfold attemptResult
  rw [hf]
  by_cases hd : data.isEmpty
  · simp [hd]
  · simp [hd, h]

/-- C3 counterexample: with BIN "B1" known, the BBL attempt (a key
coarser than BIN) returns a row whose bin is "B2" and the search returns
it unfiltered — the post-filter does not guard BBL attempts. -/
theorem c3_counterexample :
    c3Ids.bin = some "B1" ∧
    successfulAttempt c3Ids c3Fetch = some StrategyKind.byBbl ∧
    multiKeySearch c3Ids c3Fetch = [c3Row] ∧
    pyGet c3Row "bin" = PyVal.vStr "B2" ∧
    PyVal.vStr "B2" ≠ PyVal.vStr "B1" := by
  refine ⟨rfl, by decide, by decide, by decide, by decide⟩

/-- C3 (amended): the BIN post-filter guards only Block/Lot attempts.
When a BIN is known, every row a Block/Lot attempt yields has a matching
bin field, and an attempt all of whose fetched rows mismatch is treated
as empty (so the next strategy is tried); BBL attempts — and the address
attempts of the elevator search — return their rows with no such filter,
as the counterexample shows. -/
theorem c3_blocklot_post_filter (ids : PropertyIdentifiers)
    (fetch : StrategyKind → Option (List Row))
    (h : optTruthy ids.bin = true) :
    (∀ r ∈ attemptResult ids fetch StrategyKind.byBlockLot,
      binMatches ids r = true) ∧
    (∀ data : List Row, fetch StrategyKind.byBlockLot = some data →
      (∀ r ∈ data, binMatches ids r = false) →
      attemptResult ids fetch StrategyKind.byBlockLot = []) := by
  constructor
  · intro r hr
    cases hf : fetch StrategyKind.byBlockLot with
    | none =>
        unfold attemptResult at hr
        rw [hf] at hr
        simp at hr
    | some data =>
        rw [attemptResult_blockLot ids fetch data hf h] at hr
        by_cases hd : data.isEmpty
        · simp [hd] at hr
        · rw [if_neg (by simp [hd])] at hr
          exact (List.mem_filter.mp hr).2
  · intro data hf hall
    rw [attemptResult_blockLot ids fetch data hf h]
    by_cases hd : data.isEmpty
    · simp [hd]
    · rw [if_neg (by simp [hd])]
      exact List.filter_eq_nil_iff.mpr (fun r hr => by simp [hall r hr])

/-- C3 witness: a Block/Lot attempt returning one matching and one
mismatching row keeps exactly the matching one. -/
theorem c3_blocklot_post_filter_witness :
    optTruthy c3bIds.bin = true ∧
    (∀ r ∈ attemptResult c3bIds c3bFetch StrategyKind.byBlockLot,
      binMatches c3bIds r = true) ∧
    attemptResult c3bIds c3bFetch StrategyKind.byBlockLot = [c3bRowMatch] :=
  have h := c3_blocklot_post_filter c3bIds c3bFetch (by decide)
  ⟨by decide, h.1, by decide⟩

/-! ## Claim C4 -/

/-- The strategy loop returns the first non-empty post-processed attempt
along the plan, and the empty list when every attempt comes up empty. -/
theorem multiKeySearchGo_eq (ids : PropertyIdentifiers)
    (fetch : StrategyKind → Option (List Row)) :
    ∀ plan : List StrategyKind,
      multiKeySearchGo ids fetch plan =
        ((plan.map (attemptResult ids fetch)).filter
          (fun r => !r.isEmpty)).headD []
  | [] => rfl
  | k :: rest => by
      simp only [multiKeySearchGo, List.map_cons, List.filter_cons]
      by_cases h : (attemptResult ids fetch k).isEmpty
      · simp [h, multiKeySearchGo_eq ids fetch rest]
      · simp [h]

/-- An attempt's outcome depends on the fetch only at its own strategy. -/
theorem attemptResult_congr (ids : PropertyIdentifiers)
    (fetch fetch2 : StrategyKind → Option (List Row)) (k : StrategyKind)
    (hk : fetch2 k = fetch k) :
    attemptResult ids fetch2 k = attemptResult ids fetch k := by
  unfold attemptResult
  rw [hk]

/-- The loop's result depends only on the attempts it executed: any fetch
agreeing on the executed prefix yields the same result — later attempts
are never run. -/
theorem multiKeySearchGo_congr (ids : PropertyIdentifiers)
    (fetch fetch2 : StrategyKind → Option (List Row)) :
    ∀ plan : List StrategyKind,
      (∀ k ∈ executedAttemptsGo ids fetch plan, fetch2 k = fetch k) →
      multiKeySearchGo ids fetch2 plan = multiKeySearchGo ids fetch plan
  | [], _ => rfl
  | k :: rest, h => by
      by_cases he : (attemptResult ids fetch k).isEmpty
      · have hk : fetch2 k = fetch k := by
          apply h
          simp [executedAttemptsGo, he]
        have har := attemptResult_congr ids fetch fetch2 k hk
        have hrest : ∀ k2 ∈ executedAttemptsGo ids fetch rest,
            fetch2 k2 = fetch k2 := by
          intro k2 hk2
          apply h
          simp only [executedAttemptsGo, he, if_true, List.mem_cons]
          right
          exact hk2
        simp only [multiKeySearchGo, har, he, if_true]
        exact multiKeySearchGo_congr ids fetch fetch2 rest hrest
      · have hk : fetch2 k = fetch k := by
          apply h
          simp [executedAttemptsGo, he]
        have har := attemptResult_congr ids fetch fetch2 k hk
        simp [multiKeySearchGo, har, he]

/-- C4: the search executes the plan's attempts strictly in order and
returns the result set of the first attempt whose (identifier-consistent)
post-processed result is non-empty, or `[]` when none is; the result is
unchanged under any fetch that agrees on the executed attempts, i.e.
later attempts are never executed. -/
theorem c4_search_contract (ids : PropertyIdentifiers)
    (fetch : StrategyKind → Option (List Row)) :
    multiKeySearch ids fetch =
      (((buildPlan ids).map (attemptResult ids fetch)).filter
        (fun r => !r.isEmpty)).headD [] ∧
    ∀ fetch2 : StrategyKind → Option (List Row),
      (∀ k ∈ executedAttempts ids fetch, fetch2 k = fetch k) →
      multiKeySearch ids fetch2 = multiKeySearch ids fetch := by
  constructor
  · exact multiKeySearchGo_eq ids fetch (buildPlan ids)
  · intro fetch2 h
    exact multiKeySearchGo_congr ids fetch fetch2 (buildPlan ids) h

/-- C4 witness: a successful first (BIN) attempt is returned, and a fetch
that differs only on the never-executed BBL and Block/Lot attempts gives
the same result. -/
theorem c4_search_contract_witness :
    multiKeySearch c3Ids c4Fetch =
      (((buildPlan c3Ids).map (attemptResult c3Ids c4Fetch)).filter
        (fun r => !r.isEmpty)).headD [] ∧
    multiKeySearch c3Ids c4FetchLater = multiKeySearch c3Ids c4Fetch ∧
    multiKeySearch c3Ids c4Fetch = [c4Row] ∧
    executedAttempts c3Ids c4Fetch = [StrategyKind.byBin] :=
  have h := c4_search_contract c3Ids c4Fetch
  ⟨h.1, h.2 c4FetchLater (by decide), by decide, by decide⟩

/-! ## Claim C5 -/

/-- C5: at the failing input — a single electrical permit filed
2025-06-01 with status Approved, processed in 2026 — the grouped permit
dict has no `filing_date` key, so `recent_permits` is 0 and the score is
70, although the permit is active and its filing date parses to a year
within the last two calendar years (the claim and the scorer's own
comments say 90). -/
theorem c5_electrical_score_bug :
    group_devices_by_id [c5PermitRow] "filing_number" "filing_date" =
      Except.ok [c5Dev] ∧
    electrical_score_of [c5Dev] 2026 = Except.ok 70 ∧
    electricalActiveCount [c5Dev] = 1 ∧
    c5Dev.get "filing_date" = PyVal.vNone ∧
    strptimeYmd ((pyStr (pyGet c5PermitRow "filing_date")).take 10) =
      some ⟨2025, 6, 1⟩ := by
  refine ⟨by decide, by decide, by decide, rfl, by decide⟩

/-! ## Claim C6 -/

/-- `clean_date_value` never reformats: a `some` result is exactly the
stripped input string. -/
theorem clean_date_value_some (s t : String)
    (h : clean_date_value (PyVal.vStr s) = some t) : t = pyStrip s := by
  simp only [clean_date_value] at h
  split at h
  · cases h
  · split at h
    · split at h
      · exact (Option.some.inj h).symm
      · cases h
    · split at h
      · split at h
        · exact (Option.some.inj h).symm
        · cases h
      · cases h

/-- `clean_date_value` either rejects (null) or passes the stripped
input through unchanged. -/
theorem clean_date_value_none_or_strip (v : PyVal) :
    clean_date_value v = none ∨
    ∃ s, v = PyVal.vStr s ∧ clean_date_value v = some (pyStrip s) := by
  cases v with
  | vNone => left; rfl
  | vStr s =>
      cases hcv : clean_date_value (PyVal.vStr s) with
      | none => left; rfl
      | some t =>
          right
          exact ⟨s, rfl, by rw [clean_date_value_some s t hcv]⟩

/-- C6 counterexample: the accepted input "2023-1-5" (it parses under
the `%Y-%m-%d` strptime attempt) is emitted verbatim by the normalizer;
it neither matches `\d\d\d\d-\d\d-\d\d` nor is null. -/
theorem c6_counterexample :
    clean_data_for_json [c6Row] = [[("inspection_date", PyVal.vStr "2023-1-5")]] ∧
    isDateKey "inspection_date" = true ∧
    isIsoDateShape "2023-1-5" = false ∧
    PyVal.vStr "2023-1-5" ≠ PyVal.vNone := by
  refine ⟨by decide, by decide, by decide, by decide⟩

/-- C6 (amended): for every input record and every date-named field, the
normalizer emits either null or the whitespace-stripped input string
unchanged — it validates (nulling unparseable values and those whose
decisive parse has year < 1900) but performs no reformatting, so the
emitted value need not match `\d\d\d\d-\d\d-\d\d`. -/
theorem c6_normalizer_dates (data : List Row) :
    ∀ item ∈ clean_data_for_json data, ∀ kv ∈ item, isDateKey kv.1 = true →
      kv.2 = PyVal.vNone ∨
      ∃ item0, item0 ∈ data ∧ ∃ s, (kv.1, PyVal.vStr s) ∈ item0 ∧
        kv.2 = PyVal.vStr (pyStrip s) := by
  intro item hitem kv hkv hdate
  simp only [clean_data_for_json, List.mem_map] at hitem
  obtain ⟨item0, h0, rfl⟩ := hitem
  rw [List.mem_map] at hkv
  obtain ⟨kv0, hkv0, rfl⟩ := hkv
  by_cases hnan : kv0.2 = PyVal.vNone ∨ pyLower (pyStr kv0.2) = "nan"
  · left
    simp [cleanField, hnan]
  · have hkey : (cleanField kv0).1 = kv0.1 := by
      unfold cleanField
      split
      · rfl
      · split
        · rfl
        · rfl
    have hdk : isDateKey kv0.1 = true := by rw [← hkey]; exact hdate
    have hcf : cleanField kv0 = (kv0.1, optToVal (clean_date_value kv0.2)) := by
      unfold cleanField
      rw [if_neg hnan, if_pos hdk]
    rw [hcf]
    rcases clean_date_value_none_or_strip kv0.2 with hn | ⟨s, hvs, hsome⟩
    · left
      simp [hn, optToVal]
    · right
      refine ⟨item0, h0, s, ?_, ?_⟩
      · have heta : (kv0.1, PyVal.vStr s) = kv0 := by
          rw [← hvs]
        rw [heta]
        exact hkv0
      · simp [hsome, optToVal]

/-- C6 witness: a stripped date value passes through the normalizer
unchanged. -/
theorem c6_normalizer_dates_witness :
    ("inspection_date", PyVal.vStr "2023-01-15").2 = PyVal.vNone ∨
    ∃ item0, item0 ∈ c6WitnessData ∧
      ∃ s, (("inspection_date", PyVal.vStr "2023-01-15").1, PyVal.vStr s) ∈ item0 ∧
        ("inspection_date", PyVal.vStr "2023-01-15").2 = PyVal.vStr (pyStrip s) :=
  c6_normalizer_dates c6WitnessData c6WitnessOutRow (by decide)
    ("inspection_date", PyVal.vStr "2023-01-15") (by decide) (by decide)

/-! ## Claim C7: helper lemmas for the grouper invariant -/

theorem lookup_updateGroupList (rid : String) (f : DeviceGroup → DeviceGroup)
    (id : String) :
    ∀ l : List (String × DeviceGroup),
      lookupGroup id (updateGroupList rid f l) =
        if id = rid then (lookupGroup rid l).map f else lookupGroup id l
  | [] => by
      by_cases h : id = rid <;> simp [updateGroupList, lookupGroup, h]
  | (k, g) :: rest => by
      by_cases hk : k = rid
      · by_cases hkid : k = id
        · have hidrid : id = rid := by rw [← hkid, hk]
          simp [updateGroupList, lookupGroup, hk, hkid, hidrid]
        · have hidrid : ¬ id = rid := by
            intro h
            exact hkid (by rw [hk, ← h])
          have hridid : ¬ rid = id := by rw [← hk]; exact hkid
          simp [updateGroupList, lookupGroup, hk, hkid, hidrid, hridid]
      · by_cases hkid : k = id
        · have hidrid : ¬ id = rid := by
            intro h
            exact hk (by rw [hkid, h])
          simp [updateGroupList, lookupGroup, hk, hkid, hidrid]
        · simp only [updateGroupList, if_neg hk, lookupGroup, if_neg hkid]
          exact lookup_updateGroupList rid f id rest

theorem lookup_append_single (id rid : String) (g0 : DeviceGroup) :
    ∀ l : List (String × DeviceGroup),
      lookupGroup id (l ++ [(rid, g0)]) =
        match lookupGroup id l with
        | some g => some g
        | none => if rid = id then some g0 else none
  | [] => by simp [lookupGroup]
  | (k, g) :: rest => by
      by_cases hkid : k = id
      · simp [lookupGroup, hkid]
      · simp only [List.cons_append, lookupGroup, if_neg hkid]
        exact lookup_append_single id rid g0 rest

theorem keys_updateGroupList (rid : String) (f : DeviceGroup → DeviceGroup) :
    ∀ l : List (String × DeviceGroup),
      (updateGroupList rid f l).map Prod.fst = l.map Prod.fst
  | [] => rfl
  | (k, g) :: rest => by
      by_cases hk : k = rid
      · simp [updateGroupList, hk]
      · simp only [updateGroupList, if_neg hk, List.map_cons]
        rw [keys_updateGroupList rid f rest]

theorem lookup_none_not_mem_keys (id : String) :
    ∀ l : List (String × DeviceGroup), lookupGroup id l = none →
      id ∉ l.map Prod.fst
  | [], _ => by simp
  | (k, g) :: rest, h => by
      by_cases hkid : k = id
      · simp [lookupGroup, hkid] at h
      · simp only [lookupGroup, if_neg hkid] at h
        simp only [List.map_cons, List.mem_cons]
        push_neg
        exact ⟨fun hh => hkid hh.symm, lookup_none_not_mem_keys id rest h⟩

theorem mem_lookup_of_nodup (id : String) (g : DeviceGroup) :
    ∀ l : List (String × DeviceGroup), (l.map Prod.fst).Nodup →
      (id, g) ∈ l → lookupGroup id l = some g
  | [], _, hm => by simp at hm
  | (k, g2) :: rest, hnd, hm => by
      rcases List.mem_cons.mp hm with heq | hm2
      · cases heq
        simp [lookupGroup]
      · have hkid : ¬ k = id := by
          intro h
          subst h
          have : k ∈ rest.map Prod.fst :=
            List.mem_map.mpr ⟨(k, g), hm2, rfl⟩
          simp only [List.map_cons, List.nodup_cons] at hnd
          exact hnd.1 this
        simp only [lookupGroup, if_neg hkid]
        exact mem_lookup_of_nodup id g rest
          (by simp only [List.map_cons, List.nodup_cons] at hnd
              exact hnd.2) hm2


theorem updateGroup_inspections (dateF : String) (g : DeviceGroup) (r : Row) :
    (updateGroup dateF g r).inspections = g.inspections ++ [r] := by
  unfold updateGroup
  cases rowDateParsed dateF r with
  | none => rfl
  | some p =>
      simp only []
      split <;> rfl

theorem updateGroup_latest (dateF : String) (g : DeviceGroup) (r : Row) :
    (updateGroup dateF g r).latest = latestStep dateF g.latest r := by
  unfold updateGroup latestStep
  cases rowDateParsed dateF r with
  | none => rfl
  | some p =>
      simp only []
      cases hl : g.latest with
      | none => simp
      | some q =>
          by_cases hq : q.key < p.key
          · simp [hq]
          · simp [hq]

theorem updateGroup_device_id (dateF : String) (g : DeviceGroup) (r : Row) :
    (updateGroup dateF g r).device_id = g.device_id := by
  unfold updateGroup
  cases rowDateParsed dateF r with
  | none => rfl
  | some p =>
      simp only []
      split <;> rfl

theorem newGroup_device_id (r : Row) (id : String) :
    (newGroup r id).device_id = id := rfl

theorem newGroup_inspections (r : Row) (id : String) :
    (newGroup r id).inspections = [] := rfl

theorem newGroup_latest (r : Row) (id : String) :
    (newGroup r id).latest = none := rfl

theorem lookup_addRecord (didF dateF id : String)
    (groups : List (String × DeviceGroup)) (r : Row) :
    lookupGroup id (addRecord didF dateF groups r) =
      match recordId didF r with
      | none => lookupGroup id groups
      | some rid =>
          if id = rid then
            some (updateGroup dateF ((lookupGroup rid groups).getD (newGroup r rid)) r)
          else lookupGroup id groups := by
  unfold addRecord
  cases hr : recordId didF r with
  | none => rfl
  | some rid =>
      simp only []
      cases hl : lookupGroup rid groups with
      | some g0 =>
          simp only [Option.isSome_some, if_true]
          rw [lookup_updateGroupList]
          by_cases hid : id = rid
          · rw [if_pos hid, if_pos hid, hl]
            rfl
          · rw [if_neg hid, if_neg hid]
      | none =>
          simp only [Option.isSome_none, Bool.false_eq_true, if_false]
          rw [lookup_updateGroupList]
          by_cases hid : id = rid
          · rw [if_pos hid, if_pos hid]
            rw [lookup_append_single]
            rw [hl]
            simp only [if_pos rfl]
            rfl
          · rw [if_neg hid, if_neg hid]
            rw [lookup_append_single]
            cases hli : lookupGroup id groups with
            | some g => rfl
            | none =>
                simp only []
                rw [if_neg (fun h => hid h.symm)]

theorem nodup_keys_addRecord (didF dateF : String)
    (groups : List (String × DeviceGroup)) (r : Row)
    (h : (groups.map Prod.fst).Nodup) :
    ((addRecord didF dateF groups r).map Prod.fst).Nodup := by
  unfold addRecord
  cases hr : recordId didF r with
  | none => exact h
  | some rid =>
      simp only []
      cases hl : lookupGroup rid groups with
      | some g0 =>
          simp only [Option.isSome_some, if_true]
          rw [keys_updateGroupList]
          exact h
      | none =>
          simp only [Option.isSome_none, Bool.false_eq_true, if_false]
          rw [keys_updateGroupList]
          rw [List.map_append]
          rw [List.nodup_append]
          refine ⟨h, by simp, ?_⟩
          intro a ha hb
          simp only [List.map_cons, List.map_nil, List.mem_singleton] at hb
          subst hb
          exact lookup_none_not_mem_keys _ groups hl ha

theorem buildGroups_append (didF dateF : String) (xs : List Row) (r : Row) :
    buildGroups didF dateF (xs ++ [r]) =
      addRecord didF dateF (buildGroups didF dateF xs) r := by
  unfold buildGroups
  rw [List.foldl_append]
  rfl

theorem buildGroups_nodup_keys (didF dateF : String) (data : List Row) :
    ((buildGroups didF dateF data).map Prod.fst).Nodup := by
  induction data using List.reverseRecOn with
  | nil => simp [buildGroups]
  | append_singleton xs r ih =>
      rw [buildGroups_append]
      exact nodup_keys_addRecord didF dateF _ r ih

theorem deviceRows_append (didF : String) (xs : List Row) (r : Row) (id : String) :
    deviceRows didF (xs ++ [r]) id =
      deviceRows didF xs id ++
        (if recordId didF r = some id then [r] else []) := by
  unfold deviceRows
  rw [List.filter_append]
  by_cases h : recordId didF r = some id
  · simp [h]
  · simp [h]

theorem maxParsedDate_append (dateF : String) (xs : List Row) (r : Row) :
    maxParsedDate dateF (xs ++ [r]) =
      latestStep dateF (maxParsedDate dateF xs) r := by
  unfold maxParsedDate
  rw [List.foldl_append]
  rfl

theorem buildGroups_spec (didF dateF : String) (data : List Row) :
    (∀ id g, lookupGroup id (buildGroups didF dateF data) = some g →
      g.device_id = id ∧ deviceRows didF data id ≠ [] ∧
      g.inspections = deviceRows didF data id ∧
      g.latest = maxParsedDate dateF (deviceRows didF data id)) ∧
    (∀ id, lookupGroup id (buildGroups didF dateF data) = none →
      deviceRows didF data id = []) := by
  induction data using List.reverseRecOn with
  | nil =>
      constructor
      · intro id g h
        simp [buildGroups, lookupGroup] at h
      · intro id h
        simp [deviceRows]
  | append_singleton xs r ih =>
      obtain ⟨ih1, ih2⟩ := ih
      constructor
      · intro id g h
        rw [buildGroups_append, lookup_addRecord] at h
        rw [deviceRows_append]
        cases hr : recordId didF r with
        | none =>
            rw [hr] at h
            have h2 : lookupGroup id (buildGroups didF dateF xs) = some g := h
            have hg := ih1 id g h2
            simpa using hg
        | some rid =>
            rw [hr] at h
            have h2 : (if id = rid then
                some (updateGroup dateF
                  ((lookupGroup rid (buildGroups didF dateF xs)).getD
                    (newGroup r rid)) r)
              else lookupGroup id (buildGroups didF dateF xs)) = some g := h
            by_cases hid : id = rid
            · subst hid
              rw [if_pos rfl] at h2
              injection h2 with hg
              cases hl : lookupGroup id (buildGroups didF dateF xs) with
              | some g0 =>
                  rw [hl] at hg
                  obtain ⟨hd0, hne0, hi0, hl0⟩ := ih1 id g0 hl
                  subst hg
                  refine ⟨?_, ?_, ?_, ?_⟩
                  · rw [updateGroup_device_id]
                    simp only [Option.getD_some]
                    exact hd0
                  · simp
                  · rw [updateGroup_inspections]
                    simp only [Option.getD_some]
                    rw [hi0]
                    simp
                  · rw [updateGroup_latest]
                    simp only [Option.getD_some]
                    rw [hl0]
                    simp only [if_true]
                    rw [maxParsedDate_append]
              | none =>
                  rw [hl] at hg
                  have hrows := ih2 id hl
                  subst hg
                  refine ⟨?_, ?_, ?_, ?_⟩
                  · rw [updateGroup_device_id]
                    simp only [Option.getD_none]
                    rfl
                  · simp
                  · rw [updateGroup_inspections]
                    simp only [Option.getD_none, newGroup_inspections]
                    rw [hrows]
                    simp
                  · rw [updateGroup_latest]
                    simp only [Option.getD_none]
                    simp only [if_true]
                    rw [maxParsedDate_append, hrows]
                    rfl
            · rw [if_neg hid] at h2
              have hg := ih1 id g h2
              have hrid : ¬ (some rid = some id) := by
                intro hh
                exact hid (Option.some.inj hh).symm
              rw [if_neg hrid, List.append_nil]
              exact hg
      · intro id h
        rw [buildGroups_append, lookup_addRecord] at h
        rw [deviceRows_append]
        cases hr : recordId didF r with
        | none =>
            rw [hr] at h
            have h2 : lookupGroup id (buildGroups didF dateF xs) = none := h
            have hrows := ih2 id h2
            simpa using hrows
        | some rid =>
            rw [hr] at h
            have h2 : (if id = rid then
                some (updateGroup dateF
                  ((lookupGroup rid (buildGroups didF dateF xs)).getD
                    (newGroup r rid)) r)
              else lookupGroup id (buildGroups didF dateF xs)) = none := h
            by_cases hid : id = rid
            · rw [if_pos hid] at h2
              cases h2
            · rw [if_neg hid] at h2
              have hrows := ih2 id h2
              have hrid : ¬ (some rid = some id) := by
                intro hh
                exact hid (Option.some.inj hh).symm
              rw [if_neg hrid, List.append_nil]
              exact hrows

theorem exceptMap_ok_mem {α β : Type} (f : α → Except String β) :
    ∀ (l : List α) (ys : List β), exceptMap f l = Except.ok ys →
      ∀ y ∈ ys, ∃ x, x ∈ l ∧ f x = Except.ok y
  | [], ys, h => by
      injection h with h
      subst h
      intro y hy
      simp at hy
  | x :: xs, ys, h => by
      unfold exceptMap at h
      cases hf : f x with
      | error e => rw [hf] at h; cases h
      | ok y0 =>
          rw [hf] at h
          cases hm : exceptMap f xs with
          | error e => rw [hm] at h; cases h
          | ok ys0 =>
              rw [hm] at h
              injection h with h
              subst h
              intro y hy
              rcases List.mem_cons.mp hy with rfl | hy2
              · exact ⟨x, List.mem_cons_self x xs, hf⟩
              · obtain ⟨x2, hx2, hfx2⟩ := exceptMap_ok_mem f xs ys0 hm y hy2
                exact ⟨x2, List.mem_cons_of_mem x hx2, hfx2⟩

theorem pySortDescOnKey_ok {α : Type} (key : α → Option String) (l out : List α)
    (h : pySortDescOnKey key l = Except.ok out) :
    out = List.insertionSort (keyGe (fun x => (key x).getD "")) l := by
  unfold pySortDescOnKey at h
  split at h
  · cases h
  · exact (Except.ok.inj h).symm

theorem finalizeGroup_ok (dateF : String) (g : DeviceGroup) (dev : DeviceRecord)
    (h : finalizeGroup dateF g = Except.ok dev) :
    dev.device_id = g.device_id ∧
    dev.inspections =
      List.insertionSort (keyGe (fun r => (inspSortKey dateF r).getD ""))
        g.inspections ∧
    dev.total_inspections = dev.inspections.length ∧
    dev.latest_inspection_date = g.latest.map formatISODate := by
  unfold finalizeGroup at h
  cases hs : pySortDescOnKey (inspSortKey dateF) g.inspections with
  | error e => rw [hs] at h; cases h
  | ok sorted =>
      rw [hs] at h
      injection h with h
      subst h
      have := pySortDescOnKey_ok (inspSortKey dateF) g.inspections sorted hs
      subst this
      exact ⟨rfl, rfl, rfl, rfl⟩

/-- C7 counterexample: on two rows of device "D", one with raw date
"02/01/2021" (parsed 2021-02-01) and one with "2020-01-01", the grouper
sorts the inspections by RAW string descending, so `inspections[0]` is the
"2020-01-01" row, while `latest_inspection_date` is "2021-02-01" — the
maximum of the PARSED dates, not the parse of `inspections[0]`. -/
theorem c7_counterexample :
    group_devices_by_id [c7Row1, c7Row2] "device_number" "status_date" =
      Except.ok [c7CexDev] ∧
    c7CexDev.latest_inspection_date = some "2021-02-01" ∧
    c7CexDev.inspections.head? = some c7Row2 ∧
    (rowDateParsed "status_date" c7Row2).map formatISODate = some "2020-01-01" ∧
    (rowDateParsed "status_date" c7Row1).map formatISODate = some "2021-02-01" ∧
    some "2021-02-01" ≠ some ("2020-01-01" : String) := by
  refine ⟨by decide, by decide, by decide, by decide, by decide, by decide⟩

/-- C7 (corrected): whenever `group_devices_by_id` succeeds, every emitted
device has a non-empty inspections list, `total_inspections` equal to its
length, the list sorted descending on the raw date-string key (the exact
rows of that device, reordered), and `latest_inspection_date` equal to the
ISO rendering of the maximum PARSED date over the device's rows (None when
no date parses) — not the parse of the first sorted inspection. -/
theorem c7_group_invariant (data : List Row) (didF dateF : String)
    (out : List DeviceRecord)
    (h : group_devices_by_id data didF dateF = Except.ok out) :
    ∀ dev ∈ out,
      dev.inspections ≠ [] ∧
      dev.total_inspections = dev.inspections.length ∧
      List.Sorted (keyGe (fun r => (inspSortKey dateF r).getD ""))
        dev.inspections ∧
      dev.inspections =
        List.insertionSort (keyGe (fun r => (inspSortKey dateF r).getD ""))
          (deviceRows didF data dev.device_id) ∧
      dev.latest_inspection_date =
        (maxParsedDate dateF (deviceRows didF data dev.device_id)).map
          formatISODate := by
  intro dev hdev
  unfold group_devices_by_id at h
  cases hm : exceptMap (fun p => finalizeGroup dateF p.2)
      (buildGroups didF dateF data) with
  | error e => rw [hm] at h; cases h
  | ok finals =>
      rw [hm] at h
      have hout := pySortDescOnKey_ok (fun d => d.latest_inspection_date)
        finals out h
      subst hout
      have hdev2 : dev ∈ finals :=
        (List.perm_insertionSort _ finals).mem_iff.mp hdev
      obtain ⟨p, hp, hfp⟩ := exceptMap_ok_mem (fun p => finalizeGroup dateF p.2)
        (buildGroups didF dateF data) finals hm dev hdev2
      have hnd := buildGroups_nodup_keys didF dateF data
      have hlk : lookupGroup p.1 (buildGroups didF dateF data) = some p.2 :=
        mem_lookup_of_nodup p.1 p.2 _ hnd hp
      obtain ⟨hdid, hne, hins, hlat⟩ :=
        (buildGroups_spec didF dateF data).1 p.1 p.2 hlk
      obtain ⟨fd, fi, ft, fl⟩ := finalizeGroup_ok dateF p.2 dev hfp
      have hdevid : dev.device_id = p.1 := fd.trans hdid
      rw [hdevid]
      refine ⟨?_, ft, ?_, ?_, ?_⟩
      · rw [fi, hins]
        intro hnil
        have hlen := List.length_insertionSort
          (keyGe (fun r => (inspSortKey dateF r).getD ""))
          (deviceRows didF data p.1)
        rw [hnil] at hlen
        exact hne (List.length_eq_zero.mp hlen.symm)
      · rw [fi]
        exact List.sorted_insertionSort _ _
      · rw [fi, hins]
      · rw [fl, hlat]

/-- C7 witness: the invariant instantiated on one concrete row. -/
theorem c7_group_invariant_witness :
    c7wDev.inspections ≠ [] ∧
    c7wDev.total_inspections = c7wDev.inspections.length ∧
    List.Sorted (keyGe (fun r => (inspSortKey "status_date" r).getD ""))
      c7wDev.inspections ∧
    c7wDev.inspections =
      List.insertionSort (keyGe (fun r => (inspSortKey "status_date" r).getD ""))
        (deviceRows "device_number" [c7wRow] c7wDev.device_id) ∧
    c7wDev.latest_inspection_date =
      (maxParsedDate "status_date"
        (deviceRows "device_number" [c7wRow] c7wDev.device_id)).map
        formatISODate :=
  c7_group_invariant [c7wRow] "device_number" "status_date" [c7wDev]
    (by decide) c7wDev (by decide)

/-! ## Claim C8 -/

/-- C8: the device grouper is not total.  With one device whose dates are
unparseable (its `latest_inspection_date` stays `None`) next to one with
a parseable date, the final `list.sort` compares `None` with a string
and raises `TypeError`; the normalizer, by contrast, degrades the same
rows to nulls without error. -/
theorem c8_grouper_raises :
    group_devices_by_id [c8RowA, c8RowB] "boiler_id" "inspection_date" =
      Except.error sortKeyTypeError ∧
    clean_data_for_json [c8RowA, c8RowB] =
      [[("boiler_id", PyVal.vStr "A"), ("inspection_date", PyVal.vNone)],
       [("boiler_id", PyVal.vStr "B"),
        ("inspection_date", PyVal.vStr "2023-01-01")]] := by
  refine ⟨by decide, by decide⟩

/-! ## Claim C9 -/

/-- C9 counterexample: with elevator score 100/3 the stored overall
score is 251/3, which is not equal to its one-decimal rounding 83.7 —
the code stores the unrounded weighted sum. -/
theorem c9_counterexample :
    (create_compliance_record exIds c9Data 2026 "").toOption.map
      (fun r => r.overall_compliance_score) = some (251 / 3) ∧
    specRound1 (251 / 3) = 837 / 10 ∧ ((251 : ℚ) / 3 ≠ 837 / 10) := by
  refine ⟨?_, ?_, by norm_num⟩
  · rw [create_compliance_record_eq]
    show some (hpdScoreOf c9Data * 0.3 + dobScoreOf c9Data * 0.3 +
      elevatorScoreOf c9Data * 0.2 + electricalScoreOf c9Data * 0.2) =
      some ((251 : ℚ) / 3)
    have h1 : hpdScoreOf c9Data = 100 := rfl
    have h2 : dobScoreOf c9Data = 100 := rfl
    have h3 : elevatorScoreOf c9Data =
        ((1 : ℕ) : ℚ) / ((3 : ℕ) : ℚ) * 100 := rfl
    have h4 : electricalScoreOf c9Data = 85 := rfl
    rw [h1, h2, h3, h4]
    norm_num
  · rw [specRound1, round_eq]
    norm_num

/-- C9 (amended): the stored overall score equals the exact weighted sum
0.3·HPD + 0.3·DOB + 0.2·elevator + 0.2·electrical with no rounding; the
weights sum to 1, and four equal domain scores s give overall s. -/
theorem c9_overall_formula (ids : PropertyIdentifiers) (cd : ComplianceData)
    (nowYear : Int) (now : String) (rec : ComplianceRecord)
    (h : create_compliance_record ids cd nowYear now = Except.ok rec) :
    rec.overall_compliance_score =
      rec.hpd_compliance_score * 0.3 + rec.dob_compliance_score * 0.3 +
        rec.elevator_compliance_score * 0.2 +
        rec.electrical_compliance_score * 0.2 ∧
    ((0.3 : ℚ) + 0.3 + 0.2 + 0.2 = 1) ∧
    ∀ s : ℚ, rec.hpd_compliance_score = s → rec.dob_compliance_score = s →
      rec.elevator_compliance_score = s → rec.electrical_compliance_score = s →
      rec.overall_compliance_score = s := by
  have h4 := create_compliance_record_eq ids cd nowYear now
  rw [h] at h4
  injection h4 with h5
  subst h5
  refine ⟨rfl, by norm_num, ?_⟩
  intro s h1 h2 h3 hh4
  have e1 : hpdScoreOf cd = s := h1
  have e2 : dobScoreOf cd = s := h2
  have e3 : elevatorScoreOf cd = s := h3
  have e4 : electricalScoreOf cd = s := hh4
  show hpdScoreOf cd * 0.3 + dobScoreOf cd * 0.3 + elevatorScoreOf cd * 0.2 +
    electricalScoreOf cd * 0.2 = s
  rw [e1, e2, e3, e4]
  ring_nf

/-- C9 witness: the weighted-sum identity instantiated on a concrete
record produced by `create_compliance_record`. -/
theorem c9_overall_formula_witness :
    c9WitnessRec.overall_compliance_score =
      c9WitnessRec.hpd_compliance_score * 0.3 +
        c9WitnessRec.dob_compliance_score * 0.3 +
        c9WitnessRec.elevator_compliance_score * 0.2 +
        c9WitnessRec.electrical_compliance_score * 0.2 ∧
    ((0.3 : ℚ) + 0.3 + 0.2 + 0.2 = 1) :=
  have h := c9_overall_formula exIds {} 2026 "" c9WitnessRec
    (by rw [create_compliance_record_eq]
        simp only [c9WitnessRec, exIds, hpdScoreOf, dobScoreOf,
          elevatorScoreOf, electricalScoreOf, Except.ok.injEq,
          ComplianceRecord.mk.injEq]
        norm_num [activeDeviceCount, electricalActiveCount])
  ⟨h.1, h.2.1⟩

/-! ## Claim C10 -/

/-- C10: when both identification strategies fail, `process_property`
returns the empty record: `data_sources` is "FAILED", all violation,
device and permit counts are 0, and all five compliance scores are
100 — by its scores indistinguishable from a perfectly compliant
property. -/
theorem c10_failed_lookup (address now : String)
    (gather : PropertyIdentifiers → ComplianceData) (nowYear : Int) :
    process_property address now none none gather nowYear =
      Except.ok (create_empty_record address now) ∧
    (create_empty_record address now).data_sources = "FAILED" ∧
    (create_empty_record address now).hpd_violations_total = 0 ∧
    (create_empty_record address now).hpd_violations_active = 0 ∧
    (create_empty_record address now).dob_violations_total = 0 ∧
    (create_empty_record address now).dob_violations_active = 0 ∧
    (create_empty_record address now).elevator_devices_total = 0 ∧
    (create_empty_record address now).elevator_devices_active = 0 ∧
    (create_empty_record address now).boiler_devices_total = 0 ∧
    (create_empty_record address now).electrical_permits_total = 0 ∧
    (create_empty_record address now).electrical_permits_active = 0 ∧
    (create_empty_record address now).hpd_compliance_score = 100 ∧
    (create_empty_record address now).dob_compliance_score = 100 ∧
    (create_empty_record address now).elevator_compliance_score = 100 ∧
    (create_empty_record address now).electrical_compliance_score = 100 ∧
    (create_empty_record address now).overall_compliance_score = 100 :=
  ⟨rfl, rfl, rfl, rfl, rfl, rfl, rfl, rfl, rfl, rfl, rfl, rfl, rfl, rfl, rfl,
    rfl⟩

end ComplianceNYC
